import Mathlib

/-!
Verification development for the aharar-bot donor-management service.

The definitions below are a shallow embedding of the Python sources
(`aharar_bot/utils.py`, `aharar_bot/database.py`, `aharar_bot/handlers.py`,
`aharar_bot/scheduler.py`, `aharar_bot/config.py`).  Pure functions are
embedded as Lean functions; the SQLite tables are embedded as lists of
records inside an explicit `DBState` passed through every operation; the
Telegram messaging gateway is embedded as a list of outbound messages
`(recipient chat id, payload)` produced by each operation.  Wall-clock reads
(`datetime.now`) are embedded as explicit parameters: handlers and scheduler
jobs receive the current Gregorian date triple and run it through the
repository's own `gregorian_to_jalali`, exactly as the source does.
Python machine integers are unbounded, so `Int`/`Nat` model them exactly;
Python `//` and `%` are floor division and floor modulus, modelled with
`Int.fdiv` and `Int.fmod`.
-/

/-- Python runtime exceptions that the embedded operations can raise. -/
inductive PyExn where
  | typeError : PyExn
  | nameError : PyExn
deriving DecidableEq, Repr

/-- Payload of one outbound message through the messaging gateway:
`python-telegram-bot`'s `send_message`/`reply_text` (text), `send_photo`
(photo, reference opaque), `send_document` (document with its filename). -/
inductive Payload where
  | text (s : String) : Payload
  | photo : Payload
  | document (filename : String) : Payload
deriving DecidableEq, Repr

/-- One outbound message: recipient chat id and payload. -/
abbrev Msg := Int × Payload

/-- A row of the `users` table (database.py lines 37-51).  `telegram_id` is
the nullable bound chat identity; timestamps are opaque `Nat` instants. -/
structure User where
  id : Nat
  pin_code : String
  full_name : String
  telegram_id : Option Int
  donation_amount : String
  donation_link : String
  status : String
  created_at : Nat
  updated_at : Nat
deriving DecidableEq, Repr

/-- A row of the `payments` table (database.py lines 54-68). -/
structure Payment where
  id : Nat
  user_id : Nat
  jalali_month : Int
  jalali_year : Int
  status : String
  image_path : Option String
  created_at : Nat
  updated_at : Nat
deriving DecidableEq, Repr

/-- The persistent state: contents of the `users` and `payments` tables,
plus the AUTOINCREMENT counter that `create_payment` returns as
`cursor.lastrowid`. -/
structure DBState where
  users : List User
  payments : List Payment
  nextPaymentId : Nat
deriving DecidableEq, Repr

/-- One row of the seed CSV after `seed_users` normalizes the header keys
(database.py lines 107-114): the four extracted fields. -/
structure CsvRow where
  pin_code : String
  full_name : String
  amount : String
  donation_link : String
deriving DecidableEq, Repr

/-- The slice of `context.user_data` that `handle_pin_code` stashes and
`handle_verification` reads back (handlers.py lines 77-82, 103-112). -/
structure CtxData where
  user_id : Nat
  full_name : String
  donation_link : String
  donation_amount : String
deriving DecidableEq, Repr

/-- Conversation-state return codes of the handlers (handlers.py lines
16-18; `ConversationHandler.END` is `-1` in python-telegram-bot). -/
def PIN_CODE : Int := 0

/-- Conversation state `VERIFICATION` (handlers.py line 17). -/
def VERIFICATION : Int := 1

/-- Conversation state `MAIN_MENU` (handlers.py line 18). -/
def MAIN_MENU : Int := 2

/-- `ConversationHandler.END` sentinel of python-telegram-bot. -/
def CONVERSATION_END : Int := -1

/-- Trigger day of the donation-due job (config.py line 36). -/
def NOTIFICATION_DAY : Int := 3

/-- Trigger day of the reminder job (config.py line 37). -/
def REMINDER_DAY : Int := 7

/-- Trigger day of the report job (config.py line 38). -/
def REPORT_DAY : Int := 10

/-! ## PIN normalization (utils.py `normalize_pin`, lines 102-132)

Python `str.strip()` removes the characters for which `str.isspace()` is
true from both ends; `isPySpace` lists exactly that character set
(U+0009-U+000D, U+001C-U+001F, space, U+0085, U+00A0, U+1680,
U+2000-U+200A, U+2028, U+2029, U+202F, U+205F, U+3000).  Note that the
zero-width characters U+200B/U+200C are NOT whitespace for `strip`; the
source removes them with explicit `replace` calls. -/

/-- Characters stripped by Python `str.strip()` (the `str.isspace()` set). -/
def isPySpace (c : Char) : Bool :=
  let n := c.toNat
  (9 ≤ n && n ≤ 13) || (28 ≤ n && n ≤ 31) || n == 32 || n == 0x85 ||
    n == 0xA0 || n == 0x1680 || (0x2000 ≤ n && n ≤ 0x200A) ||
    n == 0x2028 || n == 0x2029 || n == 0x202F || n == 0x205F || n == 0x3000

/-- Drop leading Python whitespace. -/
def stripLeft (l : List Char) : List Char := List.dropWhile isPySpace l

/-- Drop trailing Python whitespace. -/
def stripRight (l : List Char) : List Char :=
  (List.dropWhile isPySpace l.reverse).reverse

/-- Python `str.strip()` on a character list: both ends. -/
def pyStrip (l : List Char) : List Char := stripRight (stripLeft l)

/-- Python `str.strip()` on a `String`. -/
def pyStripStr (s : String) : String := ⟨pyStrip s.data⟩

/-- utils.py lines 114-115: drop every zero-width non-joiner (U+200C) and
zero-width space (U+200B), the two `s.replace(..., "")` calls. -/
def removeZeroWidth (l : List Char) : List Char :=
  l.filter (fun c => !(c.toNat == 0x200C || c.toNat == 0x200B))

/-- The digit-translation table of utils.py lines 117-128: the loop checks
membership of each character in `persian_digits = "۰۱۲۳۴۵۶۷۸۹"` and
`arabic_digits = "٠١٢٣٤٥٦٧٨٩"` and replaces a match by
`str(index)`, i.e. by the ASCII digit at the same position.  Unrolled here
as an association list (glyph, ASCII digit at the glyph's index). -/
def digitMap : List (Char × Char) :=
  [('۰', '0'), ('۱', '1'), ('۲', '2'), ('۳', '3'), ('۴', '4'),
   ('۵', '5'), ('۶', '6'), ('۷', '7'), ('۸', '8'), ('۹', '9'),
   ('٠', '0'), ('١', '1'), ('٢', '2'), ('٣', '3'), ('٤', '4'),
   ('٥', '5'), ('٦', '6'), ('٧', '7'), ('٨', '8'), ('٩', '9')]

/-- Per-character digit replacement of the utils.py loop: a Persian or
Arabic-Indic digit becomes the corresponding ASCII digit, anything else is
kept. -/
def mapChar (c : Char) : Char :=
  match digitMap.find? (fun p => p.1 == c) with
  | some p => p.2
  | none => c

/-- `normalize_pin` (utils.py lines 102-132) on a character list:
empty-input guard, strip, remove zero-width marks, per-character digit
replacement, final strip. -/
def normalizePin (l : List Char) : List Char :=
  if l = [] then []
  else pyStrip (List.map mapChar (removeZeroWidth (pyStrip l)))

/-- `normalize_pin` on a `String`. -/
def normalize_pin (s : String) : String := ⟨normalizePin s.data⟩

/-! ## Calendar adapter (utils.py `JalaliCalendar`, lines 12-80)

Embedded over `Int` with Python's floor division/modulus.  The source's
`datetime` values appear only through their `(year, month, day)` fields, so
dates are `(Int × Int × Int)` triples in that order. -/

/-- `JalaliCalendar.gregorian_to_jalali` (utils.py lines 12-46), returning
`(j_y, j_m, j_d)`.  Transcribed statement by statement, including the two
dead fix-up branches at lines 39-44. -/
def gregorian_to_jalali (g : Int × Int × Int) : Int × Int × Int :=
  let g_y := g.1
  let g_m := g.2.1
  let g_d := g.2.2
  let j_y := if g_m > 2 then g_y + 621 else g_y + 620
  let g_m := if g_m > 2 then g_m - 3 else g_m + 9
  let g_d := g_d + (Int.fdiv g_m 11) * 30 + (Int.fmod g_m 11) * 31 - 6
  let j_m := Int.fdiv (g_d - 1) 31 + 1
  let j_d := Int.fmod (g_d - 1) 31 + 1
  let (j_m, j_d) := if j_d < 1 then (j_m - 1, (31 : Int)) else (j_m, j_d)
  let (j_y, j_m) := if j_m < 1 then (j_y - 1, (12 : Int)) else (j_y, j_m)
  (j_y, j_m, j_d)

/-- `JalaliCalendar.jalali_to_gregorian` (utils.py lines 48-80), returning
the `(year, month, day)` of the constructed `datetime`. -/
def jalali_to_gregorian (j_y j_m j_d : Int) : Int × Int × Int :=
  let g_m := if j_m < 7 then j_m + 9 else j_m - 3
  let g_y := if j_m < 7 then j_y - 622 else j_y - 621
  let g_d := j_d + (Int.fdiv (j_m - 1) 7) * 31 + (Int.fmod j_m 7) * 30 + 5
  let g_d := if g_m > 2 then g_d + 30 + 31 - 1 else g_d - 1
  let _g_m := if g_m > 2 then g_m - 3 else g_m + 9
  (g_y, Int.fdiv (g_d - 1) 30 + 1, Int.fmod (g_d - 1) 30 + 1)

/-- `JalaliCalendar.get_current_jalali_month_year` (utils.py lines 89-93):
reads the wall clock, converts, and returns `(j_m, j_y)` — month first.
The wall-clock read is the explicit Gregorian parameter `g`. -/
def get_current_jalali_month_year (g : Int × Int × Int) : Int × Int :=
  let t := gregorian_to_jalali g
  (t.2.1, t.1)

/-! ## Database operations (database.py)

Each SQL statement is embedded over `DBState`.  `sqlite3` row order is
insertion order; `fetchone` on a `WHERE` query is the first matching list
element; `UPDATE ... WHERE` maps over the rows. -/

/-- Python `str.isdigit` restricted to the digit glyphs this system can
produce (ASCII after normalization, plus the Persian/Arabic-Indic glyph
sets the source translates): true on a nonempty all-digit string. -/
def pyIsDigitChar (c : Char) : Bool :=
  ('0' ≤ c && c ≤ '9') || (digitMap.find? (fun p => p.1 == c)).isSome

/-- Python `str.isdigit()` on a character list. -/
def pyIsDigit (l : List Char) : Bool := !l.isEmpty && l.all pyIsDigitChar

/-- Numeric value of one digit glyph (used by Python `int(...)`, which
accepts localized digits). -/
def pyDigitVal (c : Char) : Nat :=
  match digitMap.find? (fun p => p.1 == c) with
  | some p => p.2.toNat - 48
  | none => c.toNat - 48

/-- Python `int(...)` on a string that passed `isdigit`: base-10 value. -/
def pyInt (l : List Char) : Nat := l.foldl (fun acc c => 10 * acc + pyDigitVal c) 0

/-- The numeric-fallback row test of `get_user_by_pin` (database.py lines
155-164): the stored pin, stripped, must be all digits and have the same
integer value as the normalized input. -/
def pinNumericFallbackMatch (n : List Char) (r : User) : Bool :=
  let db_pin := pyStrip r.pin_code.data
  pyIsDigit db_pin && (pyInt db_pin == pyInt n)

/-- `Database.get_user_by_pin` (database.py lines 139-166): normalize the
input, try an exact `pin_code` match (`fetchone` = first matching row),
then, when the normalized pin is all digits, scan all rows for a numeric
match ignoring leading zeros. -/
def get_user_by_pin (db : DBState) (pin_code : String) : Option User :=
  let normalized := normalize_pin pin_code
  match db.users.find? (fun r => r.pin_code == normalized) with
  | some r => some r
  | none =>
    if pyIsDigit normalized.data then
      db.users.find? (pinNumericFallbackMatch normalized.data)
    else none

/-- `Database.get_user_by_telegram_id` (database.py lines 168-173). -/
def get_user_by_telegram_id (db : DBState) (telegram_id : Int) : Option User :=
  db.users.find? (fun r => r.telegram_id == some telegram_id)

/-- `Database.update_user_telegram_id` (database.py lines 175-185): sets
`telegram_id` and `updated_at` of the row with the given id and nothing
else ("without changing status").  Its Python signature takes exactly the
two data parameters `(user_id, telegram_id)`. -/
def update_user_telegram_id (db : DBState) (user_id : Nat) (telegram_id : Int)
    (now : Nat) : DBState :=
  { db with users := db.users.map (fun u =>
      if u.id = user_id then { u with telegram_id := some telegram_id, updated_at := now }
      else u) }

/-- `Database.logout_user_by_telegram_id` (database.py lines 187-197):
`UPDATE users SET telegram_id = NULL, updated_at = ? WHERE telegram_id = ?`. -/
def logout_user_by_telegram_id (db : DBState) (telegram_id : Int) (now : Nat) : DBState :=
  { db with users := db.users.map (fun u =>
      if u.telegram_id = some telegram_id then
        { u with telegram_id := none, updated_at := now }
      else u) }

/-- `Database.get_user_by_id` (database.py lines 199-204). -/
def get_user_by_id (db : DBState) (user_id : Nat) : Option User :=
  db.users.find? (fun r => r.id == user_id)

/-- `Database.create_payment` (database.py lines 206-223): INSERT a row
(image_path NULL, timestamps defaulted) and return `cursor.lastrowid`. -/
def create_payment (db : DBState) (user_id : Nat) (jalali_month jalali_year : Int)
    (status : String) (now : Nat) : DBState × Nat :=
  let newId := db.nextPaymentId
  ({ db with
      payments := db.payments ++
        [{ id := newId, user_id := user_id, jalali_month := jalali_month,
           jalali_year := jalali_year, status := status, image_path := none,
           created_at := now, updated_at := now }],
      nextPaymentId := newId + 1 },
   newId)

/-- `Database.update_payment_status` (database.py lines 225-246): set the
status (and optionally the image path) and `updated_at` of the payment row
with the given id.  The callers in scheduler.py pass no `image_path`. -/
def update_payment_status (db : DBState) (payment_id : Nat) (status : String)
    (image_path : Option String) (now : Nat) : DBState :=
  { db with payments := db.payments.map (fun p =>
      if p.id = payment_id then
        match image_path with
        | some path => { p with status := status, image_path := some path, updated_at := now }
        | none => { p with status := status, updated_at := now }
      else p) }

/-- `Database.get_pending_payments` (database.py lines 248-261): payments of
the given Jalali month/year whose status is pending or failed. -/
def get_pending_payments (db : DBState) (jalali_month jalali_year : Int) : List Payment :=
  db.payments.filter (fun p =>
    p.jalali_month == jalali_month && p.jalali_year == jalali_year &&
      (p.status == "pending" || p.status == "failed"))

/-- `Database.get_all_verified_users` (database.py lines 263-269):
`SELECT * FROM users WHERE telegram_id IS NOT NULL` — despite its name it
selects the users with a bound chat identity, whatever their status. -/
def get_all_verified_users (db : DBState) : List User :=
  db.users.filter (fun u => u.telegram_id.isSome)

/-- `Database.seed_users` (database.py lines 86-137), as a function of the
current `users` row count, whether the seed CSV exists, and its parsed
rows.  The missing-file branch at line 102 executes `logger.info(...)`, but
no name `logger` is defined or imported anywhere in database.py, so Python
raises `NameError` there.  When rows are read, each pin is normalized and a
row is inserted only when pin and full name are nonempty (line 121), with
amount defaulted to "0" and status `unverified`. -/
def seed_users (userCount : Nat) (csvExists : Bool) (rows : List CsvRow)
    (now : Nat) : Except PyExn (List User) :=
  if userCount > 0 then .ok []
  else if !csvExists then .error .nameError
  else .ok ((rows.enum.filterMap (fun rc =>
    let pin := normalize_pin rc.2.pin_code
    if pin ≠ "" && rc.2.full_name ≠ "" then
      some { id := rc.1 + 1, pin_code := pin, full_name := rc.2.full_name,
             telegram_id := none,
             donation_amount := if rc.2.amount ≠ "" then rc.2.amount else "0",
             donation_link := rc.2.donation_link, status := "unverified",
             created_at := now, updated_at := now }
    else none)))

/-! ## Conversation handlers (handlers.py)

Each handler is embedded as a function of the database state, the invoking
chat identity, the relevant message content and the wall clock, returning
the new database state, the outbound messages in send order, and the
conversation-state return value.  Gateway calls (file download, photo
forwarding) are opaque successful effects. -/

/-- `MessageFormatter.format_pin_request` (utils.py lines 152-155). -/
def format_pin_request : String :=
  "سلام\nلطفا کد معرف‌تون رو بفرستید (مثلا 021)"

/-- `MessageFormatter.format_payment_approved` (utils.py lines 186-192). -/
def format_payment_approved : String :=
  "پرداخت شما با موفقیت تأیید شد!\nبرای کمک شما سپاسگزارم."

/-- `MessageFormatter.format_payment_denied` (utils.py lines 194-200). -/
def format_payment_denied : String :=
  "متأسفانه پرداخت شما تأیید نشد.\nلطفا با ادمین (@Ahrarcharity_admin) تماس بگیرید."

/-- `MessageFormatter.format_donation_reminder` (utils.py lines 138-150). -/
def format_donation_reminder (full_name amount donation_link : String) : String :=
  full_name ++ " عزیز سلام\n" ++
  "موعد پرداخت " ++ amount ++ " تومان این ماه فرا رسیده\n" ++
  "لینک پرداخت:\n" ++ donation_link ++ "\n" ++
  "شماره کارت خیریه (با لمس کردن کپی می شود):\n" ++
  "۶۲۲۱۰۶۱۲۳۷۷۵۷۰۸۵ - مهدی شاعری\n" ++
  "در صورت واریز وجه، رسید آنرا از طریق آپلود بفرستید"

/-- `handle_verification` (handlers.py lines 96-130).  The affirmative
branch at line 108 executes
`db.update_user_telegram_id(user_id, telegram_id, UserStatus.VERIFIED)` —
three data arguments against the two-parameter signature of
`Database.update_user_telegram_id` (database.py line 175), so Python
raises `TypeError` at the call, before any database mutation, message or
state transition.  The negative branch re-prompts for the PIN; anything
else stays in `VERIFICATION` silently. -/
def handle_verification (db : DBState) (ctx : CtxData) (telegram_id : Int)
    (text : String) (now : Nat) : Except PyExn (DBState × List Msg × Int) :=
  let response := pyStripStr text
  if response = "بله" then
    .error .typeError
  else if response = "خیر" then
    .ok (db, [(telegram_id, .text format_pin_request)], PIN_CODE)
  else
    .ok (db, [], VERIFICATION)

/-- `handle_donation_link` (handlers.py lines 171-183): looks the donor up
by chat identity only — the status field is never consulted — and replies
with the stored payment link, or "not found". -/
def handle_donation_link (db : DBState) (telegram_id : Int) : List Msg :=
  match get_user_by_telegram_id db telegram_id with
  | some user => [(telegram_id, .text ("لینک پرداخت شما:\n" ++ user.donation_link))]
  | none => [(telegram_id, .text "کاربری یافت نشد.")]

/-- Result of `handle_payment_upload`: new database state, outbound
messages in send order, conversation return value, and the
`context.user_data["awaiting_photo"]` flag after the call. -/
structure UploadResult where
  db : DBState
  msgs : List Msg
  ret : Int
  awaiting : Bool
deriving DecidableEq, Repr

/-- The admin notification text of handlers.py lines 251-256. -/
def admin_new_payment_msg (user : User) (payment_id : Nat) : String :=
  "پرداخت جدید برای تأیید:\n\n" ++
  "نام: " ++ user.full_name ++ "\n" ++
  "مبلغ: " ++ user.donation_amount ++ "\n" ++
  "شناسه پرداخت: " ++ toString payment_id

/-- `handle_payment_upload` (handlers.py lines 201-280).  The donor is
resolved by chat identity only (no status check).  Without a photo it sets
the awaiting flag and prompts.  With a photo it saves the image (opaque),
creates a Pending payment row for the current Jalali month/year, and then:
if `ADMIN_CHAT_ID` is falsy/zero it logs, tells the donor the image was
received but no admin is configured, and returns — no admin send is
attempted and nothing raises; otherwise it sends the admin the summary,
the photo and the approve/deny prompt, then acknowledges the donor.
`g` is the current Gregorian date the wall-clock read would produce. -/
def handle_payment_upload (db : DBState) (telegram_id : Int) (hasPhoto : Bool)
    (awaitingIn : Bool) (admin_chat_id : Int) (g : Int × Int × Int)
    (now : Nat) : UploadResult :=
  match get_user_by_telegram_id db telegram_id with
  | none => ⟨db, [(telegram_id, .text "کاربری یافت نشد.")], MAIN_MENU, awaitingIn⟩
  | some user =>
    if !hasPhoto then
      ⟨db, [(telegram_id, .text "لطفا یک تصویر ارسال کنید.")], MAIN_MENU, true⟩
    else
      let my := get_current_jalali_month_year g
      let r := create_payment db user.id my.1 my.2 "pending" now
      if admin_chat_id = 0 then
        ⟨r.1,
         [(telegram_id, .text "تصویر با موفقیت ارسال شد؛ اما ادمین پیکربندی نشده است. لطفا صبور باشید.")],
         MAIN_MENU, false⟩
      else
        ⟨r.1,
         [(admin_chat_id, .text (admin_new_payment_msg user r.2)),
          (admin_chat_id, .photo),
          (admin_chat_id, .text "لطفا تصویر را تأیید یا رد کنید:"),
          (telegram_id, .text "تصویر شما با موفقیت ارسال شد.\nانتظار تأیید مدیر...")],
         MAIN_MENU, false⟩

/-- `logout` (handlers.py lines 324-338): unknown chat identity gets a
"not logged in" reply; otherwise the binding is cleared (status untouched,
see `logout_user_by_telegram_id`), the per-chat session data is dropped and
the conversation ends. -/
def logout (db : DBState) (telegram_id : Int) (now : Nat) : DBState × List Msg × Int :=
  match get_user_by_telegram_id db telegram_id with
  | none => (db, [(telegram_id, .text "شما در سیستم وارد نشده‌اید.")], CONVERSATION_END)
  | some _ =>
    (logout_user_by_telegram_id db telegram_id now,
     [(telegram_id, .text "شما با موفقیت از حساب خارج شدید.")], CONVERSATION_END)

/-! ## Scheduler jobs and admin decisions (scheduler.py)

Each job receives the current Gregorian date triple `g` (the wall-clock
read of `get_current_jalali_date`) and produces its outbound messages.
None of the three jobs executes any INSERT/UPDATE, so they take no database
state forward.  Recipient truthiness follows Python: `if not
user.get("telegram_id")` skips both NULL and 0. -/

/-- Python truthiness of a nullable integer column. -/
def truthyTid : Option Int → Bool
  | some t => t != 0
  | none => false

/-- `send_donation_notification` (scheduler.py lines 21-45): on a computed
Jalali day other than `NOTIFICATION_DAY` it returns immediately with no
messages; otherwise one reminder per user of `get_all_verified_users`
with a truthy `telegram_id`. -/
def send_donation_notification (g : Int × Int × Int) (db : DBState) : List Msg :=
  let current_day := (gregorian_to_jalali g).2.2
  if current_day != NOTIFICATION_DAY then []
  else
    (get_all_verified_users db).filterMap (fun user =>
      match user.telegram_id with
      | some t =>
        if t != 0 then
          some (t, .text (format_donation_reminder
            user.full_name user.donation_amount user.donation_link))
        else none
      | none => none)

/-- The past-due nudge text of scheduler.py lines 64-69. -/
def reminder_text (user : User) : String :=
  user.full_name ++ " عزیز\n\n" ++
  "متاسفانه پرداخت " ++ user.donation_amount ++ " تومانی شما هنوز ثبت نشده است.\n" ++
  "لطفا در اسرع وقت درخواست خود را انجام دهید.\n\n" ++
  "لینک پرداخت: " ++ user.donation_link

/-- `send_reminder_notification` (scheduler.py lines 48-74): guarded on
`REMINDER_DAY`; otherwise one nudge per pending-or-failed payment of the
current Jalali month whose owning donor exists and has a truthy bound chat
id. -/
def send_reminder_notification (g : Int × Int × Int) (db : DBState) : List Msg :=
  let current_day := (gregorian_to_jalali g).2.2
  if current_day != REMINDER_DAY then []
  else
    let my := get_current_jalali_month_year g
    (get_pending_payments db my.1 my.2).filterMap (fun payment =>
      match get_user_by_id db payment.user_id with
      | none => none
      | some user =>
        match user.telegram_id with
        | some t => if t != 0 then some (t, .text (reminder_text user)) else none
        | none => none)

/-- `send_monthly_report` (scheduler.py lines 77-116): guarded on
`REPORT_DAY`; otherwise it builds the monthly summary, renders it to an
Excel and a PDF blob (renderer opaque), and sends BOTH documents to the
administrator chat, then deletes the files. -/
def send_monthly_report (g : Int × Int × Int) (db : DBState)
    (admin_chat_id : Int) : List Msg :=
  let current_day := (gregorian_to_jalali g).2.2
  if current_day != REPORT_DAY then []
  else
    let my := get_current_jalali_month_year g
    [(admin_chat_id, .document ("گزارش_ماه_" ++ toString my.1 ++ "_" ++ toString my.2 ++ ".xlsx")),
     (admin_chat_id, .document ("گزارش_ماه_" ++ toString my.1 ++ "_" ++ toString my.2 ++ ".pdf"))]

/-- `handle_payment_approval` (scheduler.py lines 197-218): fetch the
payment row by id (`fetchone`); absent row or absent owning donor is a
complete no-op.  Otherwise set the payment Approved and, when the donor
has a truthy bound chat id, send the fixed confirmation. -/
def handle_payment_approval (db : DBState) (payment_id : Nat) (now : Nat) :
    DBState × List Msg :=
  match db.payments.find? (fun p => p.id == payment_id) with
  | none => (db, [])
  | some payment =>
    match get_user_by_id db payment.user_id with
    | none => (db, [])
    | some user =>
      let db' := update_payment_status db payment_id "approved" none now
      match user.telegram_id with
      | some t =>
        if t != 0 then (db', [(t, .text format_payment_approved)]) else (db', [])
      | none => (db', [])

/-- `handle_payment_denial` (scheduler.py lines 221-242): same shape as
approval with status Failed and the denial text. -/
def handle_payment_denial (db : DBState) (payment_id : Nat) (now : Nat) :
    DBState × List Msg :=
  match db.payments.find? (fun p => p.id == payment_id) with
  | none => (db, [])
  | some payment =>
    match get_user_by_id db payment.user_id with
    | none => (db, [])
    | some user =>
      let db' := update_payment_status db payment_id "failed" none now
      match user.telegram_id with
      | some t =>
        if t != 0 then (db', [(t, .text format_payment_denied)]) else (db', [])
      | none => (db', [])

/-! ## Formalization vocabulary and concrete states -/

/-- Recipient chat ids of a message batch, in send order. -/
def recipients (msgs : List Msg) : List Int := msgs.map Prod.fst

/-- The chat ids the donation-due job actually targets: the truthy bound
`telegram_id`s, in table order. -/
def eligible_donation_tids (db : DBState) : List Int :=
  db.users.filterMap (fun u => match u.telegram_id with
    | some t => if t != 0 then some t else none
    | none => none)

/-- Eligibility of one pending/failed payment row for the reminder job:
its owning donor exists and has a truthy bound chat id. -/
def reminder_eligible (db : DBState) (p : Payment) : Bool :=
  match get_user_by_id db p.user_id with
  | some u => truthyTid u.telegram_id
  | none => false

/-- Sample donor rows and database states used by the concrete witnesses
and counterexamples. -/
def user007 : User :=
  { id := 1, pin_code := "007", full_name := "Test User", telegram_id := none,
    donation_amount := "500000", donation_link := "link007",
    status := "unverified", created_at := 0, updated_at := 0 }

/-- Sample donor seeded with PIN "021". -/
def user021 : User :=
  { id := 2, pin_code := "021", full_name := "Donor B", telegram_id := none,
    donation_amount := "300000", donation_link := "link021",
    status := "unverified", created_at := 0, updated_at := 0 }

/-- Two seeded donors with distinct pins, nobody bound. -/
def dbPins : DBState := { users := [user007, user021], payments := [], nextPaymentId := 1 }

/-- A donor whose status is `pending_admin` but whose chat identity 100 is
still bound. -/
def pendingAdminUser : User :=
  { id := 1, pin_code := "021", full_name := "Blocked Donor", telegram_id := some 100,
    donation_amount := "500000", donation_link := "link1",
    status := "pending_admin", created_at := 0, updated_at := 0 }

/-- Database holding only `pendingAdminUser`. -/
def dbPendingAdmin : DBState :=
  { users := [pendingAdminUser], payments := [], nextPaymentId := 1 }

/-- A verified donor bound to chat identity 200. -/
def verifiedUser : User :=
  { id := 1, pin_code := "007", full_name := "Test User", telegram_id := some 200,
    donation_amount := "500000", donation_link := "link2",
    status := "verified", created_at := 0, updated_at := 0 }

/-- Database holding only `verifiedUser`. -/
def dbVerified : DBState := { users := [verifiedUser], payments := [], nextPaymentId := 1 }

/-- The empty database. -/
def dbEmpty : DBState := { users := [], payments := [], nextPaymentId := 1 }

/-- Session data for `verifiedUser`'s confirm step. -/
def ctxVerified : CtxData :=
  { user_id := 1, full_name := "Test User", donation_link := "link2",
    donation_amount := "500000" }

/-! ## Helper lemmas -/

theorem dropWhile_idem (p : Char → Bool) (l : List Char) :
    List.dropWhile p (List.dropWhile p l) = List.dropWhile p l := by
  induction l with
  | nil => rfl
  | cons a l ih =>
    by_cases h : p a
    · simp [List.dropWhile_cons, h, ih]
    · simp [List.dropWhile_cons, h]

theorem head_false_of_dropWhile_eq_self (p : Char → Bool) (a : Char) (l : List Char)
    (h : List.dropWhile p (a :: l) = a :: l) : p a = false := by
  by_cases hp : p a
  · rw [List.dropWhile_cons, if_pos hp] at h
    have hle := (List.dropWhile_sublist (l := l) p).length_le
    have := congrArg List.length h
    simp at this
    omega
  · simp [hp]

theorem stripRight_prefix (l : List Char) : stripRight l <+: l := by
  have h := List.dropWhile_suffix (l := l.reverse) isPySpace
  rw [show List.dropWhile isPySpace l.reverse = (stripRight l).reverse by
    simp [stripRight]] at h
  exact List.reverse_suffix.mp h

theorem stripLeft_stripRight (l : List Char) (h : stripLeft l = l) :
    stripLeft (stripRight l) = stripRight l := by
  cases hsr : stripRight l with
  | nil => rfl
  | cons a t =>
    have hpre : a :: t <+: l := hsr ▸ stripRight_prefix l
    obtain ⟨rest, hrest⟩ := hpre
    have hl : l = a :: (t ++ rest) := by rw [← hrest]; rfl
    rw [hl] at h
    have hpa := head_false_of_dropWhile_eq_self isPySpace a (t ++ rest) h
    simp [stripLeft, List.dropWhile_cons, hpa]

theorem stripRight_idem (l : List Char) : stripRight (stripRight l) = stripRight l := by
  simp [stripRight, List.reverse_reverse, dropWhile_idem]

theorem pyStrip_idem (l : List Char) : pyStrip (pyStrip l) = pyStrip l := by
  show stripRight (stripLeft (stripRight (stripLeft l))) = stripRight (stripLeft l)
  rw [stripLeft_stripRight (stripLeft l) (dropWhile_idem isPySpace l), stripRight_idem]

theorem mem_of_mem_stripRight {c : Char} {l : List Char} (h : c ∈ stripRight l) : c ∈ l := by
  rw [stripRight, List.mem_reverse] at h
  have := (List.dropWhile_sublist (l := l.reverse) isPySpace).mem h
  simpa using this

theorem mem_of_mem_pyStrip {c : Char} {l : List Char} (h : c ∈ pyStrip l) : c ∈ l :=
  (List.dropWhile_sublist (l := l) isPySpace).mem (mem_of_mem_stripRight h)

theorem mapChar_eq_self_or_digit (c : Char) :
    mapChar c = c ∨ ('0' ≤ mapChar c ∧ mapChar c ≤ '9') := by
  cases h : digitMap.find? (fun p => p.1 == c) with
  | none => exact Or.inl (by rw [mapChar, h])
  | some p =>
    right
    have hmc : mapChar c = p.2 := by rw [mapChar, h]
    rw [hmc]
    have hm := List.mem_of_find?_eq_some h
    fin_cases hm <;> exact ⟨by decide, by decide⟩

theorem mapChar_idem (c : Char) : mapChar (mapChar c) = mapChar c := by
  rcases mapChar_eq_self_or_digit c with h | h
  · rw [h, h]
  · cases hf : digitMap.find? (fun p => p.1 == mapChar c) with
    | none => rw [mapChar, hf]
    | some p =>
      exfalso
      have hp := List.find?_some hf
      have hm := List.mem_of_find?_eq_some hf
      have h0 := h.1
      have h9 := h.2
      simp only [beq_iff_eq] at hp
      rw [← hp] at h0 h9
      fin_cases hm <;> revert h0 h9 <;> decide

theorem mapChar_not_zw (c : Char) (h1 : ¬(c.toNat = 0x200C ∨ c.toNat = 0x200B)) :
    ¬((mapChar c).toNat = 0x200C ∨ (mapChar c).toNat = 0x200B) := by
  rcases mapChar_eq_self_or_digit c with h | h
  · rw [h]; exact h1
  · intro hc
    have h9 := h.2
    rcases hc with hc | hc <;>
      · have : (mapChar c).toNat ≤ 57 := h9
        omega

theorem normalizePin_idem (l : List Char) : normalizePin (normalizePin l) = normalizePin l := by
  by_cases hl : l = []
  · simp [normalizePin, hl]
  · have hy : normalizePin l = pyStrip (List.map mapChar (removeZeroWidth (pyStrip l))) := by
      rw [normalizePin, if_neg hl]
    by_cases hyn : normalizePin l = []
    · conv_lhs => rw [normalizePin]
      rw [if_pos hyn, hyn]
    · conv_lhs => rw [normalizePin]
      rw [if_neg hyn]
      have hmem : ∀ c ∈ normalizePin l,
          ∃ c₀, c₀ ∈ removeZeroWidth (pyStrip l) ∧ c = mapChar c₀ := by
        intro c hc
        rw [hy] at hc
        have := mem_of_mem_pyStrip hc
        obtain ⟨c₀, hc₀, hcc⟩ := List.mem_map.mp this
        exact ⟨c₀, hc₀, hcc.symm⟩
      have hstrip : pyStrip (normalizePin l) = normalizePin l := by
        rw [hy]; exact pyStrip_idem _
      have hzw : removeZeroWidth (normalizePin l) = normalizePin l := by
        apply List.filter_eq_self.mpr
        intro c hc
        obtain ⟨c₀, hc₀, hcc⟩ := hmem c hc
        have hc₀zw : ¬(c₀.toNat = 0x200C ∨ c₀.toNat = 0x200B) := by
          rw [removeZeroWidth, List.mem_filter] at hc₀
          have := hc₀.2
          simp at this
          omega
        have := mapChar_not_zw c₀ hc₀zw
        rw [← hcc] at this
        simp
        omega
      have hmap : List.map mapChar (normalizePin l) = normalizePin l := by
        have hfix : ∀ c ∈ normalizePin l, mapChar c = c := by
          intro c hc
          obtain ⟨c₀, _, hcc⟩ := hmem c hc
          rw [hcc, mapChar_idem]
        calc List.map mapChar (normalizePin l) = List.map id (normalizePin l) :=
          List.map_congr_left hfix
        _ = normalizePin l := List.map_id _
      rw [hstrip, hzw, hmap, hstrip]

theorem find?_by_pin (users : List User) (u : User) (n : String)
    (hu : u ∈ users) (hp : u.pin_code = n)
    (huniq : users.Pairwise (fun a b => a.pin_code ≠ b.pin_code)) :
    users.find? (fun r => r.pin_code == n) = some u := by
  induction users with
  | nil => cases hu
  | cons a t ih =>
    rw [List.pairwise_cons] at huniq
    rcases List.mem_cons.mp hu with rfl | hmem
    · exact List.find?_cons_of_pos t (by simp [hp])
    · have hane : ¬(a.pin_code == n) = true := by
        simp only [beq_iff_eq]
        intro he
        exact (huniq.1 u hmem) (he.trans hp.symm)
      rw [List.find?_cons_of_neg t hane]
      exact ih hmem huniq.2

/-! ## Claim theorems -/

/-- C9: PIN normalization is idempotent — `normalize_pin (normalize_pin x)
= normalize_pin x` for every input string — and it maps the full Persian
digit glyph row "۰۱۲۳۴۵۶۷۸۹" and the full Arabic-Indic digit glyph row
"٠١٢٣٤٥٦٧٨٩" positionally onto "0123456789", i.e. every localized digit
glyph to the corresponding ASCII digit. -/
theorem normalize_pin_idempotent_and_localized_digits :
    (∀ x : String, normalize_pin (normalize_pin x) = normalize_pin x)
    ∧ normalize_pin "۰۱۲۳۴۵۶۷۸۹" = "0123456789"
    ∧ normalize_pin "٠١٢٣٤٥٦٧٨٩" = "0123456789" := by
  refine ⟨fun x => ?_, by decide, by decide⟩
  show (⟨normalizePin (normalize_pin x).data⟩ : String) = ⟨normalizePin x.data⟩
  rw [show (normalize_pin x).data = normalizePin x.data from rfl, normalizePin_idem]

/-- C9 witness: the theorem applied at the concrete input " ۴2 ". -/
theorem normalize_pin_idempotent_witness :
    normalize_pin (normalize_pin " ۴2 ") = normalize_pin " ۴2 " :=
  normalize_pin_idempotent_and_localized_digits.1 " ۴2 "

/-- C4: the calendar adapter is NOT round-trip stable on the operating
date range.  At the in-range Gregorian date 2026-10-12 the repository's
`gregorian_to_jalali` yields (2647, 8, 6) (the true Jalali date is
1405-07-20, so even the day-of-month is off by 14), and converting that
back with `jalali_to_gregorian` yields 2026-05-12, not the original
date. -/
theorem jalali_round_trip_fails_concrete :
    gregorian_to_jalali (2026, 10, 12) = (2647, 8, 6)
    ∧ jalali_to_gregorian 2647 8 6 = (2026, 5, 12)
    ∧ jalali_to_gregorian 2647 8 6 ≠ (2026, 10, 12) := by
  refine ⟨by decide, by decide, by decide⟩

/-- C7: for any donor row seeded with PIN "021" (pins are UNIQUE in the
`users` table, embedded as the pairwise-distinct hypothesis), the lookup
resolves both the localized-digit input "۰۲۱" and the padded input
" 021 " to that same donor, through the exact normalized match. -/
theorem pin_lookup_resolves_localized_and_padded
    (db : DBState) (u : User) (hu : u ∈ db.users) (hp : u.pin_code = "021")
    (huniq : db.users.Pairwise (fun a b => a.pin_code ≠ b.pin_code)) :
    get_user_by_pin db "۰۲۱" = some u ∧ get_user_by_pin db " 021 " = some u := by
  have hf := find?_by_pin db.users u "021" hu hp huniq
  constructor
  · rw [get_user_by_pin, show normalize_pin "۰۲۱" = "021" from by decide, hf]
  · rw [get_user_by_pin, show normalize_pin " 021 " = "021" from by decide, hf]

/-- C7 witness: both lookups at a concrete two-donor table. -/
theorem pin_lookup_resolves_witness :
    get_user_by_pin dbPins "۰۲۱" = some user021
    ∧ get_user_by_pin dbPins " 021 " = some user021 :=
  pin_lookup_resolves_localized_and_padded dbPins user021
    (by decide) (by decide) (by decide)

/-- C1: contrary to the claim, the affirmative confirm step does NOT
complete: handlers.py line 108 passes three data arguments
`(user_id, telegram_id, UserStatus.VERIFIED)` to
`Database.update_user_telegram_id`, whose signature (database.py line 175)
takes two, so Python raises `TypeError` before any mutation, reply or
transition; moreover the two-argument database operation itself never
changes any donor's status field. -/
theorem verification_affirmative_raises_type_error :
    (∀ (db : DBState) (ctx : CtxData) (telegram_id : Int) (now : Nat),
      handle_verification db ctx telegram_id "بله" now = .error .typeError)
    ∧ (∀ (db : DBState) (user_id : Nat) (telegram_id : Int) (now : Nat),
      (update_user_telegram_id db user_id telegram_id now).users.map User.status =
        db.users.map User.status) := by
  constructor
  · intro db ctx telegram_id now
    have hresp : pyStripStr "بله" = "بله" := by decide
    simp [handle_verification, hresp]
  · intro db user_id telegram_id now
    show (db.users.map _).map User.status = db.users.map User.status
    rw [List.map_map]
    apply List.map_congr_left
    intro u _
    by_cases h : u.id = user_id <;> simp [Function.comp, h]

/-- C1 witness: the verified donor of `dbVerified` confirming from chat
200 hits the TypeError. -/
theorem verification_affirmative_witness :
    handle_verification dbVerified ctxVerified 200 "بله" 5 = .error .typeError :=
  verification_affirmative_raises_type_error.1 dbVerified ctxVerified 200 5

/-- C8: logout clears exactly the chat-identity binding — every field of
every donor row except `telegram_id` and `updated_at` is unchanged, rows
not bound to the logged-out chat identity are untouched entirely — but the
claim's final part fails: a subsequent PIN flow cannot re-bind, because its
confirm step (`handle_verification` on the affirmative reply) raises
`TypeError` (see the C1 analysis), so re-binding is only possible at the
persistence level. -/
theorem logout_clears_binding_only_but_rebind_flow_raises :
    (∀ (db : DBState) (telegram_id : Int) (now : Nat),
      List.Forall₂ (fun u' u =>
        u'.id = u.id ∧ u'.pin_code = u.pin_code ∧ u'.full_name = u.full_name ∧
        u'.donation_amount = u.donation_amount ∧ u'.donation_link = u.donation_link ∧
        u'.status = u.status ∧ u'.created_at = u.created_at ∧
        (u.telegram_id = some telegram_id → u'.telegram_id = none) ∧
        (u.telegram_id ≠ some telegram_id →
          u'.telegram_id = u.telegram_id ∧ u'.updated_at = u.updated_at))
        (logout_user_by_telegram_id db telegram_id now).users db.users)
    ∧ (∀ (db : DBState) (ctx : CtxData) (telegram_id : Int) (now : Nat),
        handle_verification db ctx telegram_id "بله" now = .error .typeError) := by
  constructor
  · intro db telegram_id now
    show List.Forall₂ _ (db.users.map _) db.users
    rw [List.forall₂_map_left_iff, List.forall₂_same]
    intro u _
    by_cases h : u.telegram_id = some telegram_id
    · rw [if_pos h]
      exact ⟨rfl, rfl, rfl, rfl, rfl, rfl, rfl, fun _ => rfl, fun hne => absurd h hne⟩
    · rw [if_neg h]
      exact ⟨rfl, rfl, rfl, rfl, rfl, rfl, rfl, fun heq => absurd heq h,
        fun _ => ⟨rfl, rfl⟩⟩
  · intro db ctx telegram_id now
    have hresp : pyStripStr "بله" = "بله" := by decide
    simp [handle_verification, hresp]

/-- C8 witness: after logging chat 200 out of `dbVerified`, attempting the
PIN flow's confirm step from a different chat 300 raises TypeError. -/
theorem logout_rebind_flow_witness :
    handle_verification (logout_user_by_telegram_id dbVerified 200 5)
      ctxVerified 300 "بله" 6 = .error .typeError :=
  logout_clears_binding_only_but_rebind_flow_raises.2
    (logout_user_by_telegram_id dbVerified 200 5) ctxVerified 300 6

/-- C10: with an empty `users` table and a missing seed CSV,
`Database.seed_users` raises `NameError` (the missing-file branch at
database.py line 102 references the undefined name `logger`); it returns
without error and without seeding exactly when at least one user row
already exists; and `NameError` on the missing file is the only error the
operation can produce. -/
theorem seed_users_missing_file_name_error
    (userCount : Nat) (csvExists : Bool) (rows : List CsvRow) (now : Nat) :
    (userCount = 0 → csvExists = false →
      seed_users userCount csvExists rows now = .error .nameError)
    ∧ (0 < userCount → seed_users userCount csvExists rows now = .ok [])
    ∧ (∀ e, seed_users userCount csvExists rows now = .error e →
        userCount = 0 ∧ csvExists = false ∧ e = .nameError) := by
  refine ⟨?_, ?_, ?_⟩
  · intro h0 hcsv
    subst h0; subst hcsv
    rfl
  · intro h
    rw [seed_users, if_pos h]
  · intro e he
    by_cases h0 : userCount > 0
    · rw [seed_users, if_pos h0] at he
      exact absurd he (by simp)
    · have hc0 : userCount = 0 := by omega
      subst hc0
      cases hb : csvExists
      · subst hb
        refine ⟨rfl, rfl, ?_⟩
        have h1 : seed_users 0 false rows now = .error .nameError := rfl
        rw [h1] at he
        injection he with h
        exact h.symm
      · subst hb
        rw [seed_users] at he
        simp at he

/-- C10 witness: both branches at concrete inputs. -/
theorem seed_users_missing_file_witness :
    seed_users 0 false [] 0 = .error .nameError ∧ seed_users 1 true [] 0 = .ok [] :=
  ⟨(seed_users_missing_file_name_error 0 false [] 0).1 rfl rfl,
   (seed_users_missing_file_name_error 1 true [] 0).2.1 (by decide)⟩

/-- C6: an admin decision (approve or deny) on a payment id matching no
payment row returns immediately: the database state is returned unchanged
and no message is sent. -/
theorem decide_on_missing_payment_is_noop
    (db : DBState) (payment_id : Nat) (now : Nat)
    (h : db.payments.find? (fun p => p.id == payment_id) = none) :
    handle_payment_approval db payment_id now = (db, [])
    ∧ handle_payment_denial db payment_id now = (db, []) := by
  constructor
  · rw [handle_payment_approval, h]
  · rw [handle_payment_denial, h]

/-- C6 witness: deciding payment id 5 on an empty payments table. -/
theorem decide_on_missing_payment_witness :
    handle_payment_approval dbEmpty 5 3 = (dbEmpty, [])
    ∧ handle_payment_denial dbEmpty 5 3 = (dbEmpty, []) :=
  decide_on_missing_payment_is_noop dbEmpty 5 3 (by decide)

/-- C5: when a donor bound to the invoking chat identity submits a photo
and no administrator destination is configured (`ADMIN_CHAT_ID` falsy),
the upload handler completes normally (the embedded operation is total —
the source logs and returns instead of raising): it appends exactly one
Pending payment row for the current local (month, year), replies to the
donor with the received acknowledgment as its only outbound message, and
returns to the main menu without attempting any administrator send. -/
theorem upload_without_admin_single_pending_row
    (db : DBState) (telegram_id : Int) (u : User) (g : Int × Int × Int)
    (now : Nat) (aw : Bool)
    (hu : get_user_by_telegram_id db telegram_id = some u) :
    (handle_payment_upload db telegram_id true aw 0 g now).db.payments =
      db.payments ++
        [{ id := db.nextPaymentId, user_id := u.id,
           jalali_month := (get_current_jalali_month_year g).1,
           jalali_year := (get_current_jalali_month_year g).2,
           status := "pending", image_path := none,
           created_at := now, updated_at := now }]
    ∧ (handle_payment_upload db telegram_id true aw 0 g now).msgs =
        [(telegram_id, .text "تصویر با موفقیت ارسال شد؛ اما ادمین پیکربندی نشده است. لطفا صبور باشید.")]
    ∧ (handle_payment_upload db telegram_id true aw 0 g now).ret = MAIN_MENU := by
  refine ⟨?_, ?_, ?_⟩ <;> simp [handle_payment_upload, hu, create_payment]

/-- C5 witness: the verified donor of `dbVerified` uploading from chat 200
on 2026-10-16 (local month 8, local year 2647 under the repository's
conversion). -/
theorem upload_without_admin_witness :
    (handle_payment_upload dbVerified 200 true false 0 (2026, 10, 16) 9).db.payments =
      dbVerified.payments ++
        [{ id := 1, user_id := 1, jalali_month := 8, jalali_year := 2647,
           status := "pending", image_path := none,
           created_at := 9, updated_at := 9 }] := by
  have h := upload_without_admin_single_pending_row dbVerified 200 verifiedUser
    (2026, 10, 16) 9 false (by decide)
  exact h.1.trans (by decide)

/-- C2 counterexample: the gated actions are NOT blocked for a bound donor
whose status is `pending_admin`: the donation-link query returns the
donor's stored link, and the photo upload appends a payment row, refuting
"no payment row is created and no donor information is returned". -/
theorem gated_action_not_blocked_counterexample :
    pendingAdminUser.status = "pending_admin"
    ∧ handle_donation_link dbPendingAdmin 100 =
        [(100, .text "لینک پرداخت شما:\nlink1")]
    ∧ (handle_payment_upload dbPendingAdmin 100 true false 0 (2026, 10, 16) 7).db.payments ≠
        dbPendingAdmin.payments := by
  refine ⟨rfl, by decide, by decide⟩

/-- C2 (amended): every gated donor action re-checks only that the chat
identity resolves to some donor row; the donor's status is never
consulted, so a bound donor — in particular one with status
`PendingAdminApproval` — is served: the info query returns the stored
donation link and the payment-proof upload creates a Pending payment row
for the current local (month, year). -/
theorem gated_actions_check_binding_only
    (db : DBState) (telegram_id : Int) (u : User) (admin_chat_id : Int)
    (g : Int × Int × Int) (now : Nat) (aw : Bool)
    (hu : get_user_by_telegram_id db telegram_id = some u) :
    handle_donation_link db telegram_id =
      [(telegram_id, .text ("لینک پرداخت شما:\n" ++ u.donation_link))]
    ∧ (handle_payment_upload db telegram_id true aw admin_chat_id g now).db.payments =
        db.payments ++
          [{ id := db.nextPaymentId, user_id := u.id,
             jalali_month := (get_current_jalali_month_year g).1,
             jalali_year := (get_current_jalali_month_year g).2,
             status := "pending", image_path := none,
             created_at := now, updated_at := now }] := by
  constructor
  · rw [handle_donation_link, hu]
  · by_cases ha : admin_chat_id = 0 <;>
      simp [handle_payment_upload, hu, create_payment, ha]

/-- C2 witness: the amended behavior at the concrete `pending_admin`
donor, with an administrator configured (chat 555). -/
theorem gated_actions_check_binding_only_witness :
    (handle_payment_upload dbPendingAdmin 100 true false 555 (2026, 10, 16) 7).db.payments =
      dbPendingAdmin.payments ++
        [{ id := 1, user_id := 1, jalali_month := 8, jalali_year := 2647,
           status := "pending", image_path := none,
           created_at := 7, updated_at := 7 }] := by
  have h := gated_actions_check_binding_only dbPendingAdmin 100 pendingAdminUser 555
    (2026, 10, 16) 7 false (by decide)
  exact h.2.trans (by decide)

theorem length_filterMap_eq {α β : Type} (f : α → Option β) (l : List α) :
    (l.filterMap f).length = (l.filter (fun a => (f a).isSome)).length := by
  induction l with
  | nil => rfl
  | cons a t ih =>
    cases hf : f a <;> simp [List.filterMap_cons, hf, ih]

theorem count_nodup_ite (t : Int) (l : List Int) (h : l.Nodup) :
    List.count t l = if t ∈ l then 1 else 0 := by
  by_cases hm : t ∈ l
  · rw [if_pos hm]
    exact List.count_eq_one_of_mem h hm
  · rw [if_neg hm]
    exact List.count_eq_zero.mpr hm

theorem donation_recipients_eq (g : Int × Int × Int) (db : DBState)
    (hday : (gregorian_to_jalali g).2.2 = NOTIFICATION_DAY) :
    recipients (send_donation_notification g db) = eligible_donation_tids db := by
  simp only [send_donation_notification, hday, bne_self_eq_false, Bool.false_eq_true,
    if_false]
  rw [recipients, List.map_filterMap, get_all_verified_users, List.filterMap_filter,
    eligible_donation_tids]
  have hfun : (fun u : User =>
      if u.telegram_id.isSome = true then
        Option.map Prod.fst
          (match u.telegram_id with
           | some t =>
             if t != 0 then
               some (t, Payload.text (format_donation_reminder
                 u.full_name u.donation_amount u.donation_link))
             else none
           | none => none)
      else none) =
      (fun u : User => match u.telegram_id with
        | some t => if t != 0 then some t else none
        | none => none) := by
    funext u
    cases ht : u.telegram_id with
    | none => simp [ht]
    | some t => cases h0 : (t != 0) <;> simp [ht, h0]
  rw [hfun]

/-- C3 counterexample: on its matching trigger day the report job sends
TWO messages (the Excel document and the PDF document) to its single
eligible recipient, the administrator chat — not exactly one message per
eligible recipient.  The Gregorian date 2026-10-16 computes to local
day-of-month 10 = `REPORT_DAY` under the repository's conversion. -/
theorem report_job_two_messages_counterexample :
    (gregorian_to_jalali (2026, 10, 16)).2.2 = REPORT_DAY
    ∧ List.count 999 (recipients (send_monthly_report (2026, 10, 16) dbEmpty 999)) = 2 := by
  refine ⟨by decide, by decide⟩

/-- C3 (amended): each scheduler job invoked on a computed local
day-of-month different from its configured trigger day sends zero
outbound messages (and none of the three jobs performs any database
write); on the matching day the donation-due job sends exactly one
message per truthy bound chat identity (chat ids are UNIQUE, embedded as
the Nodup hypothesis), the reminder job sends exactly one message per
pending-or-failed payment row of the current local month whose owner has
a truthy bound chat identity (a donor owning several such rows receives
one message per row), and the report job sends exactly two documents —
the Excel and the PDF — to the administrator chat. -/
theorem scheduler_day_guard_and_per_recipient_counts
    (g : Int × Int × Int) (db : DBState) (admin_chat_id : Int)
    (hnodup : (eligible_donation_tids db).Nodup) :
    ((gregorian_to_jalali g).2.2 ≠ NOTIFICATION_DAY →
      send_donation_notification g db = [])
    ∧ ((gregorian_to_jalali g).2.2 ≠ REMINDER_DAY →
      send_reminder_notification g db = [])
    ∧ ((gregorian_to_jalali g).2.2 ≠ REPORT_DAY →
      send_monthly_report g db admin_chat_id = [])
    ∧ ((gregorian_to_jalali g).2.2 = NOTIFICATION_DAY →
      ∀ t : Int, List.count t (recipients (send_donation_notification g db)) =
        if t ∈ eligible_donation_tids db then 1 else 0)
    ∧ ((gregorian_to_jalali g).2.2 = REMINDER_DAY →
      (send_reminder_notification g db).length =
        ((get_pending_payments db (get_current_jalali_month_year g).1
            (get_current_jalali_month_year g).2).filter (reminder_eligible db)).length)
    ∧ ((gregorian_to_jalali g).2.2 = REPORT_DAY →
      send_monthly_report g db admin_chat_id =
        [(admin_chat_id, .document ("گزارش_ماه_" ++
            toString (get_current_jalali_month_year g).1 ++ "_" ++
            toString (get_current_jalali_month_year g).2 ++ ".xlsx")),
         (admin_chat_id, .document ("گزارش_ماه_" ++
            toString (get_current_jalali_month_year g).1 ++ "_" ++
            toString (get_current_jalali_month_year g).2 ++ ".pdf"))]) := by
  refine ⟨?_, ?_, ?_, ?_, ?_, ?_⟩
  · intro h
    simp [send_donation_notification, h]
  · intro h
    simp [send_reminder_notification, h]
  · intro h
    simp [send_monthly_report, h]
  · intro hday t
    rw [donation_recipients_eq g db hday]
    exact count_nodup_ite t _ hnodup
  · intro hday
    simp only [send_reminder_notification, hday, bne_self_eq_false,
      Bool.false_eq_true, if_false]
    rw [length_filterMap_eq]
    congr 1
    apply List.filter_congr
    intro p _
    cases hu : get_user_by_id db p.user_id with
    | none => simp [reminder_eligible, hu]
    | some u =>
      cases ht : u.telegram_id with
      | none => simp [reminder_eligible, hu, ht, truthyTid]
      | some t =>
        cases h0 : (t != 0) <;> simp [reminder_eligible, hu, ht, truthyTid, h0]
  · intro hday
    simp [send_monthly_report, hday, get_current_jalali_month_year]

/-- C3 witness: at 2026-10-16 (local day 10) the donation-due and reminder
jobs are off-day no-ops, and the report job emits exactly the two
documents, on the one-donor database. -/
theorem scheduler_day_guard_witness :
    send_donation_notification (2026, 10, 16) dbVerified = []
    ∧ send_reminder_notification (2026, 10, 16) dbVerified = []
    ∧ send_monthly_report (2026, 10, 16) dbVerified 555 =
        [(555, .document "گزارش_ماه_8_2647.xlsx"), (555, .document "گزارش_ماه_8_2647.pdf")] := by
  have h := scheduler_day_guard_and_per_recipient_counts (2026, 10, 16) dbVerified 555
    (by decide)
  exact ⟨h.1 (by decide), h.2.1 (by decide), (h.2.2.2.2.2 (by decide)).trans (by decide)⟩
